import Mathlib

/-!
Verification of the GomGom loyalty backend's attribute & perk eligibility engine.

The definitions below are a shallow embedding of the TypeScript sources
(`src/index.ts` level table and evaluator, `src/services/database.ts` action
processing and perk evaluation, `src/controllers/actions.ts` request handling,
`src/test-brands.ts` progress computation) and of the SQL function
`calculate_and_update_loyalty_level` from the migration script.

JavaScript numbers are modelled as `Int`; `Math.floor` of an integer quotient
becomes `Int.fdiv`; JavaScript falsy checks on numeric fields (`x || d`)
become explicit tests against `0`/absence; `Array.prototype.indexOf` (which
returns `-1` when absent) becomes `jsIndexOf`.
-/

namespace GomGom

/-- JS `Array.prototype.indexOf` over a list of strings: index of the first
occurrence, `-1` when absent. -/
def jsIndexOf (l : List String) (s : String) : Int :=
  match l.findIdx? (fun x => x == s) with
  | some n => (n : Int)
  | none => -1

/-- `minRequirements` record of a level definition (src/index.ts, `LevelConfig`). -/
structure MinRequirements where
  loyaltyPoints : Option Int := none
  flightsTaken : Option Int := none
  totalSpending : Option Int := none
  bankTier : Option String := none
  deriving DecidableEq

/-- A level definition (src/index.ts, `LevelConfig`). -/
structure LevelConfig where
  level : Int
  name : String
  description : String
  imageCid : String
  minRequirements : MinRequirements
  deriving DecidableEq

/-- The attribute vector consumed by `calculateLoyaltyLevel` (src/index.ts). -/
structure LoyaltyAttributes where
  loyaltyPoints : Int
  flightsTaken : Int
  totalSpending : Int
  bankTier : String
  deriving DecidableEq

/-- Level 0 entry of `LEVEL_CONFIGS` (src/index.ts). -/
def config0 : LevelConfig :=
  { level := 0, name := "Explorer"
    description := "Welcome to GomGom! Start your loyalty journey."
    imageCid := "bafkreihs44bfkpmh2wnuec3b567difnksanta37x7dtbnmlcylwn7h6gw4"
    minRequirements :=
      { loyaltyPoints := some 0, flightsTaken := some 0, totalSpending := some 0 } }

/-- Level 1 entry of `LEVEL_CONFIGS` (src/index.ts). -/
def config1 : LevelConfig :=
  { level := 1, name := "Bronze Traveler"
    description := "You're getting started with your travels!"
    imageCid := "bafybeibh56qt2q7dq7emhbrtp7vodkbkzerepxrdeaynhpubqizri4uute"
    minRequirements :=
      { loyaltyPoints := some 1000, flightsTaken := some 2, totalSpending := some 5000000 } }

/-- Level 2 entry of `LEVEL_CONFIGS` (src/index.ts). -/
def config2 : LevelConfig :=
  { level := 2, name := "Silver Navigator"
    description := "You're becoming a seasoned traveler!"
    imageCid := "bafkreidwdhm7e7pk4yfltkj3scur4mo7lobq5jetxod2zdstwcvxc46ptu"
    minRequirements :=
      { loyaltyPoints := some 2500, flightsTaken := some 5, totalSpending := some 15000000
        bankTier := some "Silver" } }

/-- Level 3 entry of `LEVEL_CONFIGS` (src/index.ts). -/
def config3 : LevelConfig :=
  { level := 3, name := "Gold Adventurer"
    description := "Your adventures are truly impressive!"
    imageCid := "bafkreih6smgbqwhgj4cul57afpd5465o3yxnpkvwl6f2ao5x2k65tsn7uq"
    minRequirements :=
      { loyaltyPoints := some 5000, flightsTaken := some 10, totalSpending := some 35000000
        bankTier := some "Gold" } }

/-- Level 4 entry of `LEVEL_CONFIGS` (src/index.ts). -/
def config4 : LevelConfig :=
  { level := 4, name := "Diamond Explorer"
    description := "You're a true connoisseur of luxury travel!"
    imageCid := "bafybeibywmwc7vfghnchifh6dwbfzxhvb7joutacmwjf3pd2s4g2dbw2aa"
    minRequirements :=
      { loyaltyPoints := some 10000, flightsTaken := some 20, totalSpending := some 75000000
        bankTier := some "Platinum" } }

/-- Level 5 entry of `LEVEL_CONFIGS` (src/index.ts). -/
def config5 : LevelConfig :=
  { level := 5, name := "Platinum Voyager"
    description := "Your loyalty and engagement are exceptional!"
    imageCid := "bafkreibjamecx6mrlua2bubdjek6el25gkgylkifnnkapu57jhn7dayqly"
    minRequirements :=
      { loyaltyPoints := some 20000, flightsTaken := some 35, totalSpending := some 150000000
        bankTier := some "Platinum" } }

/-- Level 6 entry of `LEVEL_CONFIGS` (src/index.ts). -/
def config6 : LevelConfig :=
  { level := 6, name := "Elite Wings"
    description := "You've reached the pinnacle of travel excellence!"
    imageCid := "bafybeihajokglb5lfg2ujjidpgxdvsgy2cretjntrbdio7ffxo6vbqoaiy"
    minRequirements :=
      { loyaltyPoints := some 35000, flightsTaken := some 50, totalSpending := some 300000000
        bankTier := some "Diamond" } }

/-- Level 7 entry of `LEVEL_CONFIGS` (src/index.ts). -/
def config7 : LevelConfig :=
  { level := 7, name := "Royal Crown"
    description := "You are the ultimate GomGom loyalty member!"
    imageCid := "bafybeie36og74jvgzjisjwzxs5c75rcm7e4g7qj6jmvyszxldp5nexyfly"
    minRequirements :=
      { loyaltyPoints := some 50000, flightsTaken := some 75, totalSpending := some 500000000
        bankTier := some "Diamond" } }

/-- `LEVEL_CONFIGS` (src/index.ts), ordered by ascending level. -/
def LEVEL_CONFIGS : List LevelConfig :=
  [config0, config1, config2, config3, config4, config5, config6, config7]

/-- `NFT_CONFIG.MAX_LEVEL` (src/index.ts). -/
def MAX_LEVEL : Int := 7

/-- `NFT_CONFIG.MIN_LEVEL` (src/index.ts). -/
def MIN_LEVEL : Int := 0

/-- The fixed bank-tier order used by `calculateLoyaltyLevel` (src/index.ts). -/
def bankTierHierarchy : List String :=
  ["Standard", "Silver", "Gold", "Platinum", "Diamond"]

/-- The per-level requirement check inside the loop of `calculateLoyaltyLevel`
(src/index.ts lines 352-363): all of points, flights, spending and bank tier
must be satisfied, an absent requirement defaulting to `0` (for the tier, to
ordinal `0`). -/
def meetsRequirements (c : LevelConfig) (a : LoyaltyAttributes) : Bool :=
  let requirements := c.minRequirements
  let meetsPoints := decide (requirements.loyaltyPoints.getD 0 ≤ a.loyaltyPoints)
  let meetsFlights := decide (requirements.flightsTaken.getD 0 ≤ a.flightsTaken)
  let meetsSpending := decide (requirements.totalSpending.getD 0 ≤ a.totalSpending)
  let userTierIndex := jsIndexOf bankTierHierarchy a.bankTier
  let requiredTierIndex :=
    match requirements.bankTier with
    | some t => jsIndexOf bankTierHierarchy t
    | none => 0
  let meetsBankTier := decide (requiredTierIndex ≤ userTierIndex)
  meetsPoints && meetsFlights && meetsSpending && meetsBankTier

/-- `calculateLoyaltyLevel` (src/index.ts lines 339-370): walk the level table
from the highest level down, return the first level whose requirements are all
met (`0` when none is), clamped into `[MIN_LEVEL, MAX_LEVEL]`. -/
def calculateLoyaltyLevel (a : LoyaltyAttributes) : Int :=
  let level : Int :=
    match LEVEL_CONFIGS.reverse.find? (fun c => meetsRequirements c a) with
    | some c => c.level
    | none => 0
  max MIN_LEVEL (min level MAX_LEVEL)

/-- `getLevelConfig` (src/index.ts): look up a level definition by number,
`none` when absent (the source returns `null`). -/
def getLevelConfig (level : Int) : Option LevelConfig :=
  LEVEL_CONFIGS.find? (fun c => c.level == level)

/-- The SQL `calculate_and_update_loyalty_level` CASE cascade (migration
script, `CREATE OR REPLACE FUNCTION calculate_and_update_loyalty_level`): the
level computed by the stored procedure from the four attribute columns of a
found `nft_attributes` row. -/
def calculate_and_update_loyalty_level (points flights spending : Int) (tier : String) : Int :=
  if 50000 ≤ points ∧ 75 ≤ flights ∧ 500000000 ≤ spending ∧ tier = "Diamond" then 7
  else if 35000 ≤ points ∧ 50 ≤ flights ∧ 300000000 ≤ spending ∧ tier = "Diamond" then 6
  else if 20000 ≤ points ∧ 35 ≤ flights ∧ 150000000 ≤ spending ∧
      (tier = "Platinum" ∨ tier = "Diamond") then 5
  else if 10000 ≤ points ∧ 20 ≤ flights ∧ 75000000 ≤ spending ∧
      (tier = "Platinum" ∨ tier = "Diamond") then 4
  else if 5000 ≤ points ∧ 10 ≤ flights ∧ 35000000 ≤ spending ∧
      (tier = "Gold" ∨ tier = "Platinum" ∨ tier = "Diamond") then 3
  else if 2500 ≤ points ∧ 5 ≤ flights ∧ 15000000 ≤ spending ∧
      (tier = "Silver" ∨ tier = "Gold" ∨ tier = "Platinum" ∨ tier = "Diamond") then 2
  else if 1000 ≤ points ∧ 2 ≤ flights ∧ 5000000 ≤ spending then 1
  else 0

/-- Common arithmetic form of the level cascade, with the categorical tier
already mapped to its ordinal, used to relate the TypeScript and SQL
implementations of the rule table. -/
def levelSpec (p f s ti : Int) : Int :=
  if 50000 ≤ p ∧ 75 ≤ f ∧ 500000000 ≤ s ∧ 4 ≤ ti then 7
  else if 35000 ≤ p ∧ 50 ≤ f ∧ 300000000 ≤ s ∧ 4 ≤ ti then 6
  else if 20000 ≤ p ∧ 35 ≤ f ∧ 150000000 ≤ s ∧ 3 ≤ ti then 5
  else if 10000 ≤ p ∧ 20 ≤ f ∧ 75000000 ≤ s ∧ 3 ≤ ti then 4
  else if 5000 ≤ p ∧ 10 ≤ f ∧ 35000000 ≤ s ∧ 2 ≤ ti then 3
  else if 2500 ≤ p ∧ 5 ≤ f ∧ 15000000 ≤ s ∧ 1 ≤ ti then 2
  else if 1000 ≤ p ∧ 2 ≤ f ∧ 5000000 ≤ s ∧ 0 ≤ ti then 1
  else 0

/-! Progress computation (src/test-brands.ts, `calculateProgressToNextLevel`). -/

/-- JS `Math.round((num / den) * 100)` for a positive denominator: the nearest
integer to `100 * num / den`, halves rounding up, i.e.
`⌊(100 * num / den) + 1/2⌋`. -/
def jsRound100 (num den : Int) : Int :=
  (200 * num + den).fdiv (2 * den)

/-- The body of `calculateProgressToNextLevel` after the next level definition
has been found (src/test-brands.ts lines 487-496): an absent or zero `points`
requirement yields 100, otherwise `min(100, round(100 * points / required))`. -/
def progressFromNextConfig (currentPoints : Int) (next : LevelConfig) : Int :=
  let requiredPoints := next.minRequirements.loyaltyPoints.getD 0
  if requiredPoints = 0 then 100
  else min 100 (jsRound100 currentPoints requiredPoints)

/-- `calculateProgressToNextLevel` (src/test-brands.ts lines 477-496). -/
def calculateProgressToNextLevel (attributes : LoyaltyAttributes) (currentLevel : Int) : Int :=
  if MAX_LEVEL ≤ currentLevel then 100
  else
    match getLevelConfig (currentLevel + 1) with
    | none => 100
    | some next => progressFromNextConfig attributes.loyaltyPoints next

/-! Action processing (src/services/database.ts, src/controllers/actions.ts). -/

/-- The payload fields read by `calculatePoints` and `updateNFTAttributes`
(`details` is free-form JSON in the source; only these two numeric fields are
ever read). -/
structure ActionDetails where
  pointsEarned : Option Int := none
  amount : Option Int := none
  deriving DecidableEq

/-- JS `x || d` on an optional numeric field: an absent field and `0` are
falsy and fall back to the default. -/
def jsOrNum (v : Option Int) (d : Int) : Int :=
  match v with
  | some x => if x = 0 then d else x
  | none => d

/-- `DatabaseService.calculatePoints` (src/services/database.ts lines 321-331):
fixed point table keyed by action type; unknown action types fall back to `0`
via `pointsMap[actionType] || 0`; the result is clamped by `Math.max(_, 0)`. -/
def calculatePoints (actionType : String) (details : ActionDetails) : Int :=
  let entry : Int :=
    if actionType = "vietjet_flight_booking" then jsOrNum details.pointsEarned 100
    else if actionType = "hdbank_transaction" then (jsOrNum details.amount 0).fdiv 1000
    else if actionType = "dragon_city_visit" then jsOrNum details.pointsEarned 50
    else if actionType = "hd_saison_purchase" then (jsOrNum details.amount 0).fdiv 10000
    else if actionType = "ha_long_star_booking" then jsOrNum details.pointsEarned 150
    else 0
  max entry 0

/-- The `nft_attributes` columns touched by the action path
(src/services/database.ts). -/
structure NftAttributes where
  loyalty_points : Int
  total_transactions : Int
  total_spent : Int
  vietjet_flights : Int
  hdbank_transactions : Int
  dragon_city_visits : Int
  tier_level : String
  deriving DecidableEq

/-- `DatabaseService.updateUserTier` (src/services/database.ts lines 376-390):
recompute `tier_level` from the points total by the SQL CASE thresholds. -/
def updateUserTier (a : NftAttributes) : NftAttributes :=
  { a with tier_level :=
      if 10000 ≤ a.loyalty_points then "Diamond"
      else if 5000 ≤ a.loyalty_points then "Platinum"
      else if 2000 ≤ a.loyalty_points then "Gold"
      else if 500 ≤ a.loyalty_points then "Silver"
      else "Bronze" }

/-- `DatabaseService.updateNFTAttributes` (src/services/database.ts lines
336-371): add the earned points, bump the transaction counter, apply the
action-type-specific column updates, then recompute the tier. -/
def updateNFTAttributes (a : NftAttributes) (actionType : String) (pointsEarned : Int)
    (details : ActionDetails) : NftAttributes :=
  let base := { a with
    loyalty_points := a.loyalty_points + pointsEarned
    total_transactions := a.total_transactions + 1 }
  let updated :=
    if actionType = "vietjet_flight_booking" then
      { base with vietjet_flights := base.vietjet_flights + 1 }
    else if actionType = "hdbank_transaction" then
      { base with hdbank_transactions := base.hdbank_transactions + 1
                  total_spent := base.total_spent + jsOrNum details.amount 0 }
    else if actionType = "dragon_city_visit" then
      { base with dragon_city_visits := base.dragon_city_visits + 1 }
    else base
  updateUserTier updated

/-- A row of `user_actions` as inserted by `processUserAction`. -/
structure UserActionRow where
  action_type : String
  points_earned : Int
  deriving DecidableEq

/-- The per-user persistent state touched by the action path: whether the
`users` row exists, the `nft_attributes` row, and the `user_actions` rows. -/
structure UserState where
  userExists : Bool
  attrs : NftAttributes
  actions : List UserActionRow
  deriving DecidableEq

/-- The success payload of `DatabaseService.processUserAction`. -/
structure ProcessResult where
  status : String
  message : String
  pointsEarned : Int
  deriving DecidableEq

/-- `DatabaseService.processUserAction` (src/services/database.ts lines
248-284): compute the points, insert the `user_actions` row and update the
attributes in one transaction, and report success with the earned points. -/
def processUserAction (st : UserState) (actionType : String) (details : ActionDetails) :
    ProcessResult × UserState :=
  let pointsEarned := calculatePoints actionType details
  ({ status := "success", message := "Action processed successfully"
     pointsEarned := pointsEarned },
   { st with
      actions := st.actions ++ [{ action_type := actionType, points_earned := pointsEarned }]
      attrs := updateNFTAttributes st.attrs actionType pointsEarned details })

/-- The fixed action-type allowlist of the `simulateAction` controller
(src/controllers/actions.ts lines 22-28). -/
def validActionTypes : List String :=
  ["vietjet_flight_booking", "hdbank_transaction", "dragon_city_visit",
   "hd_saison_purchase", "ha_long_star_booking"]

/-- The request body of `POST /api/actions/simulate`. -/
structure SimRequest where
  walletAddress : String
  actionType : String
  details : Option ActionDetails
  deriving DecidableEq

/-- The observable HTTP outcome of `simulateAction`: a 200 success carrying
`pointsEarned`, a 400 bad-request rejection, or a 404. -/
inductive SimResponse where
  | success (pointsEarned : Int)
  | badRequest (message : String)
  | notFound (message : String)
  deriving DecidableEq

/-- The `simulateAction` controller (src/controllers/actions.ts lines 8-63),
the exposed ProcessAction entry point: reject a missing/falsy body field with
400, reject an action type outside `validActionTypes` with 400, reject an
unknown user with 404, and otherwise run `processUserAction`. -/
def simulateAction (req : SimRequest) (st : UserState) : SimResponse × UserState :=
  match req.details with
  | none => (.badRequest "Wallet address, action type, and details are required", st)
  | some d =>
    if req.walletAddress = "" ∨ req.actionType = "" then
      (.badRequest "Wallet address, action type, and details are required", st)
    else if req.actionType ∉ validActionTypes then
      (.badRequest "Invalid action type", st)
    else if st.userExists = false then
      (.notFound "User not found. Please initialize user first.", st)
    else
      let r := processUserAction st req.actionType d
      (.success r.1.pointsEarned, r.2)

/-- The `updateNFTLoyalty` controller (src/controllers/nfts.ts lines 358-388,
routed as POST /api/nfts/update-loyalty/:tokenId): reject a NaN token id with
400 and a missing NFT row with 404, but pass the request-supplied
`actionType` into `processUserAction` with NO validation against the action
allowlist, defaulting an absent `actionDetails` body field to the empty
object. `tokenId = none` models a NaN `parseInt` result; `nftFound` models
whether `getNFTMetadata` finds the token's row; `st` is the owner's stored
state. -/
def updateNFTLoyalty (tokenId : Option Int) (actionType : String)
    (actionDetails : Option ActionDetails) (nftFound : Bool) (st : UserState) :
    SimResponse × UserState :=
  match tokenId with
  | none => (.badRequest "Invalid token ID", st)
  | some _ =>
    if nftFound = false then
      (.notFound "NFT not found", st)
    else
      let r := processUserAction st actionType (actionDetails.getD {})
      (.success r.1.pointsEarned, r.2)

/-! Perk eligibility (src/services/database.ts, `evaluatePerkUnlockCondition`
and `getUserPerks`). -/

/-- The `nft_complete_info` columns read by the perk evaluator. -/
structure NFTCompleteInfo where
  loyalty_points : Int
  tier_level : String
  total_transactions : Int
  staked_eth : Int
  vietjet_flights : Int
  hdbank_transactions : Int
  dragon_city_visits : Int
  deriving DecidableEq

/-- The recognized keys of a stored `unlock_condition` JSON object; a stored
condition with none of these keys (a malformed condition) is `some {}` with
every field `none`, while a missing condition is `none` at the `Perk` level. -/
structure UnlockCondition where
  min_loyalty_points : Option Int := none
  min_tier_level : Option String := none
  min_staked_eth : Option Int := none
  min_transactions : Option Int := none
  min_brand_specific : Option (List (String × Int)) := none
  deriving DecidableEq

/-- A `perks` row (src/services/database.ts, interface `Perk`). -/
structure Perk where
  perk_id : Int
  perk_name : String
  description : String
  brand_id : Int
  unlock_condition : Option UnlockCondition
  is_active : Bool
  deriving DecidableEq

/-- The tier order used by the perk evaluator (src/services/database.ts line
408). -/
def tierLevels : List String := ["Bronze", "Silver", "Gold", "Platinum", "Diamond"]

/-- The `brandChecks` lookup (src/services/database.ts lines 425-429): a JS
property access that yields `undefined` for an unrecognized key. -/
def brandCheckValue (u : NFTCompleteInfo) (key : String) : Option Int :=
  if key = "vietjet_flights" then some u.vietjet_flights
  else if key = "hdbank_transactions" then some u.hdbank_transactions
  else if key = "dragon_city_visits" then some u.dragon_city_visits
  else none

/-- `DatabaseService.evaluatePerkUnlockCondition` (src/services/database.ts
lines 395-439). Each guard fires only when its key is present and truthy
(a numeric `0` or empty string is falsy and skips the guard); a
`min_brand_specific` entry with an unrecognized key compares `undefined`,
which is never `<` anything in JS, so it cannot reject. -/
def evaluatePerkUnlockCondition (perk : Perk) (userInfo : Option NFTCompleteInfo) : Bool :=
  match userInfo, perk.unlock_condition with
  | none, _ => false
  | _, none => false
  | some u, some condition =>
    if (match condition.min_loyalty_points with
        | some p => !(p == 0) && decide (u.loyalty_points < p)
        | none => false) then false
    else if (match condition.min_tier_level with
        | some t => !(t == "") && decide (jsIndexOf tierLevels u.tier_level < jsIndexOf tierLevels t)
        | none => false) then false
    else if (match condition.min_staked_eth with
        | some e => !(e == 0) && decide (u.staked_eth < e)
        | none => false) then false
    else if (match condition.min_transactions with
        | some n => !(n == 0) && decide (u.total_transactions < n)
        | none => false) then false
    else if (match condition.min_brand_specific with
        | some entries => entries.any (fun kv =>
            match brandCheckValue u kv.1 with
            | some v => decide (v < kv.2)
            | none => false)
        | none => false) then false
    else true

/-- `DatabaseService.getUserPerks` (src/services/database.ts lines 289-309):
map every stored active perk row to itself plus its unlock status. -/
def getUserPerks (perks : List Perk) (userInfo : Option NFTCompleteInfo) :
    List (Perk × Bool) :=
  perks.map (fun p => (p, evaluatePerkUnlockCondition p userInfo))

/-! Concrete fixtures used by witnesses and counterexamples. -/

/-- A fresh `nft_attributes` row as created for a new user. -/
def demoAttrs : NftAttributes :=
  { loyalty_points := 0, total_transactions := 0, total_spent := 0
    vietjet_flights := 0, hdbank_transactions := 0, dragon_city_visits := 0
    tier_level := "Bronze" }

/-- A registered user with a fresh attribute row and no recorded actions. -/
def demoState : UserState :=
  { userExists := true, attrs := demoAttrs, actions := [] }

/-- A concrete `nft_complete_info` row. -/
def demoUserInfo : NFTCompleteInfo :=
  { loyalty_points := 100, tier_level := "Bronze", total_transactions := 1
    staked_eth := 0, vietjet_flights := 0, hdbank_transactions := 0
    dragon_city_visits := 0 }

/-- An active perk whose stored condition object carries none of the
recognized keys (a malformed condition such as a JSON object with an
unsupported shape). -/
def malformedPerk : Perk :=
  { perk_id := 1, perk_name := "Free Coffee", description := "A malformed perk"
    brand_id := 1, unlock_condition := some {}, is_active := true }

/-- An active perk whose stored condition is missing entirely (NULL). -/
def noCondPerk : Perk :=
  { perk_id := 2, perk_name := "Lounge Access", description := "A perk with no condition"
    brand_id := 1, unlock_condition := none, is_active := true }

/-- A payload whose `amount` field is the negative number -1000. -/
def negAmountDetails : ActionDetails := { amount := some (-1000) }

/-! Helper lemmas about the level evaluator. -/

/-- Unrolling of the highest-to-lowest search of `calculateLoyaltyLevel` over
the concrete eight-entry rule table (the clamp is the identity there since
every table level lies in `[0, 7]`). -/
lemma calculateLoyaltyLevel_eq (a : LoyaltyAttributes) :
    calculateLoyaltyLevel a =
      (if meetsRequirements config7 a then 7
       else if meetsRequirements config6 a then 6
       else if meetsRequirements config5 a then 5
       else if meetsRequirements config4 a then 4
       else if meetsRequirements config3 a then 3
       else if meetsRequirements config2 a then 2
       else if meetsRequirements config1 a then 1
       else 0 : Int) := by
  unfold calculateLoyaltyLevel
  rw [show LEVEL_CONFIGS.reverse =
    [config7, config6, config5, config4, config3, config2, config1, config0] from rfl]
  by_cases h7 : meetsRequirements config7 a
  · simp [List.find?, h7]; decide
  · by_cases h6 : meetsRequirements config6 a
    · simp [List.find?, h7, h6]; decide
    · by_cases h5 : meetsRequirements config5 a
      · simp [List.find?, h7, h6, h5]; decide
      · by_cases h4 : meetsRequirements config4 a
        · simp [List.find?, h7, h6, h5, h4]; decide
        · by_cases h3 : meetsRequirements config3 a
          · simp [List.find?, h7, h6, h5, h4, h3]; decide
          · by_cases h2 : meetsRequirements config2 a
            · simp [List.find?, h7, h6, h5, h4, h3, h2]; decide
            · by_cases h1 : meetsRequirements config1 a
              · simp [List.find?, h7, h6, h5, h4, h3, h2, h1]; decide
              · by_cases h0 : meetsRequirements config0 a
                · simp [List.find?, h7, h6, h5, h4, h3, h2, h1, h0]; decide
                · simp [List.find?, h7, h6, h5, h4, h3, h2, h1, h0]; decide

/-- The defensive clamp keeps the evaluator result inside `[0, 7]`. -/
lemma calc_bounds (a : LoyaltyAttributes) :
    0 ≤ calculateLoyaltyLevel a ∧ calculateLoyaltyLevel a ≤ 7 := by
  rw [calculateLoyaltyLevel_eq]
  split_ifs <;> omega

/-- Any table level whose requirements the vector meets is a lower bound for
the evaluator result. -/
lemma calc_ge_of_meets (a : LoyaltyAttributes) (c : LevelConfig)
    (hc : c ∈ LEVEL_CONFIGS) (h : meetsRequirements c a = true) :
    c.level ≤ calculateLoyaltyLevel a := by
  rw [calculateLoyaltyLevel_eq]
  fin_cases hc <;> split_ifs <;> first | decide | simp_all

/-- The evaluator result is either the level of some satisfied table entry or
`0` with no entry satisfied. -/
lemma calc_cases (a : LoyaltyAttributes) :
    (∃ c ∈ LEVEL_CONFIGS, meetsRequirements c a = true ∧ calculateLoyaltyLevel a = c.level) ∨
      (calculateLoyaltyLevel a = 0 ∧ ∀ c ∈ LEVEL_CONFIGS, meetsRequirements c a = false) := by
  unfold calculateLoyaltyLevel
  cases hf : LEVEL_CONFIGS.reverse.find? (fun c => meetsRequirements c a) with
  | none =>
    right
    refine ⟨by decide, ?_⟩
    intro c hc
    have := List.find?_eq_none.mp hf c (by simpa using hc)
    simpa using this
  | some c =>
    left
    have hmem : c ∈ LEVEL_CONFIGS := by
      have := List.mem_of_find?_eq_some hf
      simpa using this
    have hmeets : meetsRequirements c a = true := by
      simpa using List.find?_some hf
    refine ⟨c, hmem, hmeets, ?_⟩
    have hb : 0 ≤ c.level ∧ c.level ≤ 7 := by
      fin_cases hmem <;>
        simp [config0, config1, config2, config3, config4, config5, config6, config7]
    simp only [MIN_LEVEL, MAX_LEVEL]
    omega

/-- Each per-level requirement check is monotone in every dimension of the
attribute vector. -/
lemma meets_mono {a a' : LoyaltyAttributes}
    (hp : a'.loyaltyPoints ≤ a.loyaltyPoints)
    (hf : a'.flightsTaken ≤ a.flightsTaken)
    (hs : a'.totalSpending ≤ a.totalSpending)
    (ht : jsIndexOf bankTierHierarchy a'.bankTier ≤ jsIndexOf bankTierHierarchy a.bankTier)
    (c : LevelConfig) (h : meetsRequirements c a' = true) :
    meetsRequirements c a = true := by
  simp only [meetsRequirements, Bool.and_eq_true, decide_eq_true_eq] at h ⊢
  obtain ⟨⟨⟨h1, h2⟩, h3⟩, h4⟩ := h
  exact ⟨⟨⟨le_trans h1 hp, le_trans h2 hf⟩, le_trans h3 hs⟩, le_trans h4 ht⟩

lemma jsIndexOf_Standard : jsIndexOf bankTierHierarchy "Standard" = 0 := rfl

lemma jsIndexOf_Silver : jsIndexOf bankTierHierarchy "Silver" = 1 := rfl

lemma jsIndexOf_Gold : jsIndexOf bankTierHierarchy "Gold" = 2 := rfl

lemma jsIndexOf_Platinum : jsIndexOf bankTierHierarchy "Platinum" = 3 := rfl

lemma jsIndexOf_Diamond : jsIndexOf bankTierHierarchy "Diamond" = 4 := rfl

lemma meets0_iff (a : LoyaltyAttributes) : meetsRequirements config0 a = true ↔
    (0 ≤ a.loyaltyPoints ∧ 0 ≤ a.flightsTaken ∧ 0 ≤ a.totalSpending ∧
      0 ≤ jsIndexOf bankTierHierarchy a.bankTier) := by
  simp [meetsRequirements, config0, and_assoc]

lemma meets1_iff (a : LoyaltyAttributes) : meetsRequirements config1 a = true ↔
    (1000 ≤ a.loyaltyPoints ∧ 2 ≤ a.flightsTaken ∧ 5000000 ≤ a.totalSpending ∧
      0 ≤ jsIndexOf bankTierHierarchy a.bankTier) := by
  simp [meetsRequirements, config1, and_assoc]

lemma meets2_iff (a : LoyaltyAttributes) : meetsRequirements config2 a = true ↔
    (2500 ≤ a.loyaltyPoints ∧ 5 ≤ a.flightsTaken ∧ 15000000 ≤ a.totalSpending ∧
      1 ≤ jsIndexOf bankTierHierarchy a.bankTier) := by
  simp [meetsRequirements, config2, and_assoc, jsIndexOf_Silver]

lemma meets3_iff (a : LoyaltyAttributes) : meetsRequirements config3 a = true ↔
    (5000 ≤ a.loyaltyPoints ∧ 10 ≤ a.flightsTaken ∧ 35000000 ≤ a.totalSpending ∧
      2 ≤ jsIndexOf bankTierHierarchy a.bankTier) := by
  simp [meetsRequirements, config3, and_assoc, jsIndexOf_Gold]

lemma meets4_iff (a : LoyaltyAttributes) : meetsRequirements config4 a = true ↔
    (10000 ≤ a.loyaltyPoints ∧ 20 ≤ a.flightsTaken ∧ 75000000 ≤ a.totalSpending ∧
      3 ≤ jsIndexOf bankTierHierarchy a.bankTier) := by
  simp [meetsRequirements, config4, and_assoc, jsIndexOf_Platinum]

lemma meets5_iff (a : LoyaltyAttributes) : meetsRequirements config5 a = true ↔
    (20000 ≤ a.loyaltyPoints ∧ 35 ≤ a.flightsTaken ∧ 150000000 ≤ a.totalSpending ∧
      3 ≤ jsIndexOf bankTierHierarchy a.bankTier) := by
  simp [meetsRequirements, config5, and_assoc, jsIndexOf_Platinum]

lemma meets6_iff (a : LoyaltyAttributes) : meetsRequirements config6 a = true ↔
    (35000 ≤ a.loyaltyPoints ∧ 50 ≤ a.flightsTaken ∧ 300000000 ≤ a.totalSpending ∧
      4 ≤ jsIndexOf bankTierHierarchy a.bankTier) := by
  simp [meetsRequirements, config6, and_assoc, jsIndexOf_Diamond]

lemma meets7_iff (a : LoyaltyAttributes) : meetsRequirements config7 a = true ↔
    (50000 ≤ a.loyaltyPoints ∧ 75 ≤ a.flightsTaken ∧ 500000000 ≤ a.totalSpending ∧
      4 ≤ jsIndexOf bankTierHierarchy a.bankTier) := by
  simp [meetsRequirements, config7, and_assoc, jsIndexOf_Diamond]

/-! Claim theorems. -/

/-- C1: for every attribute vector with non-negative numeric fields and a
valid categorical tier, `calculateLoyaltyLevel` returns the level of the
highest level definition whose requirement dimensions are all simultaneously
satisfied, returns `0` when no definition matches, and the result is clamped
into `[MIN_LEVEL, MAX_LEVEL] = [0, 7]`. -/
theorem level_evaluator_spec (a : LoyaltyAttributes)
    (hp : 0 ≤ a.loyaltyPoints) (hf : 0 ≤ a.flightsTaken) (hs : 0 ≤ a.totalSpending)
    (ht : a.bankTier ∈ bankTierHierarchy) :
    (MIN_LEVEL ≤ calculateLoyaltyLevel a ∧ calculateLoyaltyLevel a ≤ MAX_LEVEL) ∧
      ((∃ c ∈ LEVEL_CONFIGS, meetsRequirements c a = true ∧ calculateLoyaltyLevel a = c.level ∧
          ∀ c' ∈ LEVEL_CONFIGS, meetsRequirements c' a = true → c'.level ≤ c.level) ∨
        (calculateLoyaltyLevel a = 0 ∧ ∀ c ∈ LEVEL_CONFIGS, meetsRequirements c a = false)) := by
  constructor
  · have := calc_bounds a
    simp only [MIN_LEVEL, MAX_LEVEL]
    omega
  · rcases calc_cases a with ⟨c, hc, hm, he⟩ | h
    · left
      exact ⟨c, hc, hm, he, fun c' hc' hm' => by
        have := calc_ge_of_meets a c' hc' hm'
        omega⟩
    · right
      exact h

/-- Witness for C1 at the concrete vector
`{points 1000, flights 2, spend 5000000, tier Standard}`. -/
theorem level_evaluator_spec_witness :
    ((0:Int) ≤ 1000 ∧ (0:Int) ≤ 2 ∧ (0:Int) ≤ 5000000 ∧ "Standard" ∈ bankTierHierarchy) ∧
      ((MIN_LEVEL ≤ calculateLoyaltyLevel ⟨1000, 2, 5000000, "Standard"⟩ ∧
          calculateLoyaltyLevel ⟨1000, 2, 5000000, "Standard"⟩ ≤ MAX_LEVEL) ∧
        ((∃ c ∈ LEVEL_CONFIGS, meetsRequirements c ⟨1000, 2, 5000000, "Standard"⟩ = true ∧
            calculateLoyaltyLevel ⟨1000, 2, 5000000, "Standard"⟩ = c.level ∧
            ∀ c' ∈ LEVEL_CONFIGS, meetsRequirements c' ⟨1000, 2, 5000000, "Standard"⟩ = true →
              c'.level ≤ c.level) ∨
          (calculateLoyaltyLevel ⟨1000, 2, 5000000, "Standard"⟩ = 0 ∧
            ∀ c ∈ LEVEL_CONFIGS, meetsRequirements c ⟨1000, 2, 5000000, "Standard"⟩ = false))) :=
  ⟨⟨by decide, by decide, by decide, by decide⟩,
    level_evaluator_spec ⟨1000, 2, 5000000, "Standard"⟩
      (by decide) (by decide) (by decide) (by decide)⟩

/-- C4: the level evaluator is monotone in every dimension — lowering any
field (numeric fields pointwise, the categorical tier by its ordinal in the
tier hierarchy) can only lower or keep the evaluated level. -/
theorem level_evaluator_monotone (a a' : LoyaltyAttributes)
    (hp : a'.loyaltyPoints ≤ a.loyaltyPoints)
    (hf : a'.flightsTaken ≤ a.flightsTaken)
    (hs : a'.totalSpending ≤ a.totalSpending)
    (ht : jsIndexOf bankTierHierarchy a'.bankTier ≤ jsIndexOf bankTierHierarchy a.bankTier) :
    calculateLoyaltyLevel a' ≤ calculateLoyaltyLevel a := by
  rcases calc_cases a' with ⟨c, hc, hm, he⟩ | ⟨h0, _⟩
  · have := calc_ge_of_meets a c hc (meets_mono hp hf hs ht c hm)
    omega
  · have := (calc_bounds a).1
    omega

/-- Witness for C4: lowering the flight count from 2 to 1 on the level-1
floor vector. -/
theorem level_evaluator_monotone_witness :
    ((1000:Int) ≤ 1000 ∧ (1:Int) ≤ 2 ∧ (5000000:Int) ≤ 5000000 ∧
      jsIndexOf bankTierHierarchy "Standard" ≤ jsIndexOf bankTierHierarchy "Standard") ∧
      calculateLoyaltyLevel ⟨1000, 1, 5000000, "Standard"⟩ ≤
        calculateLoyaltyLevel ⟨1000, 2, 5000000, "Standard"⟩ :=
  ⟨⟨by decide, by decide, by decide, by decide⟩,
    level_evaluator_monotone ⟨1000, 2, 5000000, "Standard"⟩ ⟨1000, 1, 5000000, "Standard"⟩
      (by decide) (by decide) (by decide) (by decide)⟩

/-- C5: on the concrete rule table, the vector
`{points 1000, flights 2, spend 5000000, tier Standard}` evaluates to level 1,
and lowering only the activity count to 1 drops the result to level 0:
gating is conjunctive, a single missing dimension denies the level. -/
theorem conjunctive_gating_scenarios :
    calculateLoyaltyLevel ⟨1000, 2, 5000000, "Standard"⟩ = 1 ∧
      calculateLoyaltyLevel ⟨1000, 1, 5000000, "Standard"⟩ = 0 := by
  decide

/-- The TypeScript evaluator equals the common arithmetic cascade at the
ordinal of the vector's tier. -/
lemma ts_eq_levelSpec (a : LoyaltyAttributes) :
    calculateLoyaltyLevel a =
      levelSpec a.loyaltyPoints a.flightsTaken a.totalSpending
        (jsIndexOf bankTierHierarchy a.bankTier) := by
  rw [calculateLoyaltyLevel_eq]
  simp only [meets1_iff, meets2_iff, meets3_iff, meets4_iff, meets5_iff, meets6_iff,
    meets7_iff, levelSpec]

/-- The SQL cascade at tier Standard equals the common arithmetic cascade at
ordinal 0. -/
lemma sql_eq_levelSpec_Standard (p f s : Int) :
    calculate_and_update_loyalty_level p f s "Standard" =
      levelSpec p f s (jsIndexOf bankTierHierarchy "Standard") := by
  rw [jsIndexOf_Standard]
  unfold calculate_and_update_loyalty_level levelSpec
  simp only [String.reduceEq, Int.reduceLE, and_false, and_true, if_false, if_true,
    or_false, false_or, or_self, or_true, true_or]

/-- The SQL cascade at tier Silver equals the common arithmetic cascade at
ordinal 1. -/
lemma sql_eq_levelSpec_Silver (p f s : Int) :
    calculate_and_update_loyalty_level p f s "Silver" =
      levelSpec p f s (jsIndexOf bankTierHierarchy "Silver") := by
  rw [jsIndexOf_Silver]
  unfold calculate_and_update_loyalty_level levelSpec
  simp only [String.reduceEq, Int.reduceLE, and_false, and_true, if_false, if_true,
    or_false, false_or, or_self, or_true, true_or]

/-- The SQL cascade at tier Gold equals the common arithmetic cascade at
ordinal 2. -/
lemma sql_eq_levelSpec_Gold (p f s : Int) :
    calculate_and_update_loyalty_level p f s "Gold" =
      levelSpec p f s (jsIndexOf bankTierHierarchy "Gold") := by
  rw [jsIndexOf_Gold]
  unfold calculate_and_update_loyalty_level levelSpec
  simp only [String.reduceEq, Int.reduceLE, and_false, and_true, if_false, if_true,
    or_false, false_or, or_self, or_true, true_or]

/-- The SQL cascade at tier Platinum equals the common arithmetic cascade at
ordinal 3. -/
lemma sql_eq_levelSpec_Platinum (p f s : Int) :
    calculate_and_update_loyalty_level p f s "Platinum" =
      levelSpec p f s (jsIndexOf bankTierHierarchy "Platinum") := by
  rw [jsIndexOf_Platinum]
  unfold calculate_and_update_loyalty_level levelSpec
  simp only [String.reduceEq, Int.reduceLE, and_false, and_true, if_false, if_true,
    or_false, false_or, or_self, or_true, true_or]

/-- The SQL cascade at tier Diamond equals the common arithmetic cascade at
ordinal 4. -/
lemma sql_eq_levelSpec_Diamond (p f s : Int) :
    calculate_and_update_loyalty_level p f s "Diamond" =
      levelSpec p f s (jsIndexOf bankTierHierarchy "Diamond") := by
  rw [jsIndexOf_Diamond]
  unfold calculate_and_update_loyalty_level levelSpec
  simp only [String.reduceEq, Int.reduceLE, and_false, and_true, if_false, if_true,
    or_false, false_or, or_self, or_true, true_or]

/-- C9: the TypeScript evaluator and the SQL CASE cascade compute the same
level for every attribute vector whose bank tier is one of the five
recognized tiers. -/
theorem ts_sql_level_equivalence (a : LoyaltyAttributes)
    (ht : a.bankTier ∈ bankTierHierarchy) :
    calculateLoyaltyLevel a =
      calculate_and_update_loyalty_level a.loyaltyPoints a.flightsTaken a.totalSpending
        a.bankTier := by
  rw [ts_eq_levelSpec]
  obtain ⟨p, f, s, t⟩ := a
  simp only [bankTierHierarchy, List.mem_cons, List.not_mem_nil, or_false] at ht
  rcases ht with h | h | h | h | h <;> subst h
  · exact (sql_eq_levelSpec_Standard p f s).symm
  · exact (sql_eq_levelSpec_Silver p f s).symm
  · exact (sql_eq_levelSpec_Gold p f s).symm
  · exact (sql_eq_levelSpec_Platinum p f s).symm
  · exact (sql_eq_levelSpec_Diamond p f s).symm

/-- Witness for C9 at a concrete Gold-tier vector. -/
theorem ts_sql_level_equivalence_witness :
    "Gold" ∈ bankTierHierarchy ∧
      calculateLoyaltyLevel ⟨5000, 10, 35000000, "Gold"⟩ =
        calculate_and_update_loyalty_level 5000 10 35000000 "Gold" :=
  ⟨by decide, ts_sql_level_equivalence ⟨5000, 10, 35000000, "Gold"⟩ (by decide)⟩

/-- C2 (code-bug demonstration): through the routed
POST /api/nfts/update-loyalty/:tokenId endpoint, the unrecognized action type
`teleportation` against an existing NFT whose owner has a stored attribute
row is NOT rejected: the endpoint returns a 200 success carrying
`pointsEarned = 0`, a `user_actions` row with 0 points is inserted, and the
stored vector mutates (`total_transactions` increments) — the zero-effect
success that the claim (and the spec's fail-closed contract) forbids. -/
theorem unknown_action_zero_point_success :
    (updateNFTLoyalty (some 1) "teleportation" none true demoState).1 =
        SimResponse.success 0 ∧
      (updateNFTLoyalty (some 1) "teleportation" none true demoState).2.actions =
        [{ action_type := "teleportation", points_earned := 0 }] ∧
      (updateNFTLoyalty (some 1) "teleportation" none true
          demoState).2.attrs.total_transactions =
        demoState.attrs.total_transactions + 1 := by
  refine ⟨?_, ?_, ?_⟩ <;> decide

/-- C6 counterexample: a `hdbank_transaction` whose payload carries the
negative numeric field `amount = -1000` is NOT rejected: `simulateAction`
returns a zero-point success, records a `user_actions` row, and adds the
negative amount to `total_spent` — refuting the claim that a negative numeric
payload field is rejected synchronously before any mutation. -/
theorem negative_amount_counterexample :
    (simulateAction ⟨"0xabc", "hdbank_transaction", some negAmountDetails⟩ demoState).1 =
        SimResponse.success 0 ∧
      (simulateAction ⟨"0xabc", "hdbank_transaction", some negAmountDetails⟩ demoState).2.actions =
        [{ action_type := "hdbank_transaction", points_earned := 0 }] ∧
      (simulateAction ⟨"0xabc", "hdbank_transaction", some negAmountDetails⟩
          demoState).2.attrs.total_spent = -1000 := by
  refine ⟨?_, ?_, ?_⟩ <;> decide

/-- C6 amended: a negative `amount` on a `hdbank_transaction` is not
rejected; the point delta is clamped to `0` by `Math.max(_, 0)`, but the
action is processed normally — an action row with 0 points is recorded, the
transaction counter increments, and the negative amount is added to the
stored cumulative spend. -/
theorem negative_amount_clamped (st : UserState) (w : String) (amt : Int)
    (hw : ¬ w = "") (hU : st.userExists = true) (hneg : amt < 0) :
    (simulateAction ⟨w, "hdbank_transaction", some { amount := some amt }⟩ st).1 =
        SimResponse.success 0 ∧
      (simulateAction ⟨w, "hdbank_transaction", some { amount := some amt }⟩ st).2.actions =
        st.actions ++ [{ action_type := "hdbank_transaction", points_earned := 0 }] ∧
      (simulateAction ⟨w, "hdbank_transaction", some { amount := some amt }⟩
          st).2.attrs.total_spent = st.attrs.total_spent + amt ∧
      (simulateAction ⟨w, "hdbank_transaction", some { amount := some amt }⟩
          st).2.attrs.hdbank_transactions = st.attrs.hdbank_transactions + 1 := by
  have hne : amt ≠ 0 := by omega
  have hpts : calculatePoints "hdbank_transaction" { amount := some amt } = 0 := by
    have hdv : amt.fdiv 1000 < 0 := Int.fdiv_neg' hneg (by norm_num)
    simp only [calculatePoints, jsOrNum, hne, if_neg hne, String.reduceEq, if_true, if_false]
    norm_num [String.reduceEq]
    omega
  simp only [simulateAction, hw, hU, processUserAction, hpts]
  norm_num [String.reduceEq, validActionTypes]
  simp [updateNFTAttributes, updateUserTier, jsOrNum, hne]

/-- Witness for the amended C6 at the concrete negative amount -1000. -/
theorem negative_amount_clamped_witness :
    (¬ "0xabc" = "" ∧ demoState.userExists = true ∧ (-1000 : Int) < 0) ∧
      ((simulateAction ⟨"0xabc", "hdbank_transaction", some { amount := some (-1000) }⟩
          demoState).1 = SimResponse.success 0 ∧
        (simulateAction ⟨"0xabc", "hdbank_transaction", some { amount := some (-1000) }⟩
            demoState).2.actions =
          demoState.actions ++ [{ action_type := "hdbank_transaction", points_earned := 0 }] ∧
        (simulateAction ⟨"0xabc", "hdbank_transaction", some { amount := some (-1000) }⟩
            demoState).2.attrs.total_spent = demoState.attrs.total_spent + (-1000) ∧
        (simulateAction ⟨"0xabc", "hdbank_transaction", some { amount := some (-1000) }⟩
            demoState).2.attrs.hdbank_transactions = demoState.attrs.hdbank_transactions + 1) :=
  ⟨⟨by decide, rfl, by decide⟩,
    negative_amount_clamped demoState "0xabc" (-1000) (by decide) rfl (by decide)⟩

/-- C10: for the caller-asserted-delta action types, a payload whose
`pointsEarned` is missing or `0` (falsy) awards the fixed default delta —
100 for `vietjet_flight_booking`, 50 for `dragon_city_visit`, 150 for
`ha_long_star_booking` — so an explicit zero-point claim is recorded as the
non-zero default, and the computed/returned `pointsEarned` is non-negative
for every action type. -/
theorem default_points_for_falsy_payload (d : ActionDetails)
    (h : d.pointsEarned = none ∨ d.pointsEarned = some 0) :
    calculatePoints "vietjet_flight_booking" d = 100 ∧
      calculatePoints "dragon_city_visit" d = 50 ∧
      calculatePoints "ha_long_star_booking" d = 150 ∧
      (∀ st : UserState,
        (processUserAction st "vietjet_flight_booking" d).2.actions =
          st.actions ++ [{ action_type := "vietjet_flight_booking", points_earned := 100 }] ∧
        (processUserAction st "dragon_city_visit" d).2.actions =
          st.actions ++ [{ action_type := "dragon_city_visit", points_earned := 50 }] ∧
        (processUserAction st "ha_long_star_booking" d).2.actions =
          st.actions ++ [{ action_type := "ha_long_star_booking", points_earned := 150 }]) ∧
      (∀ (t : String) (d' : ActionDetails), 0 ≤ calculatePoints t d') ∧
      (∀ (st : UserState) (t : String) (d' : ActionDetails),
        0 ≤ (processUserAction st t d').1.pointsEarned) := by
  have hfalsy : jsOrNum d.pointsEarned 100 = 100 ∧ jsOrNum d.pointsEarned 50 = 50 ∧
      jsOrNum d.pointsEarned 150 = 150 := by
    rcases h with h | h <;> simp [jsOrNum, h]
  have hv : calculatePoints "vietjet_flight_booking" d = 100 := by
    simp [calculatePoints, String.reduceEq, hfalsy.1]
  have hdc : calculatePoints "dragon_city_visit" d = 50 := by
    simp [calculatePoints, String.reduceEq, hfalsy.2.1]
  have hhl : calculatePoints "ha_long_star_booking" d = 150 := by
    simp [calculatePoints, String.reduceEq, hfalsy.2.2]
  have hnn : ∀ (t : String) (d' : ActionDetails), 0 ≤ calculatePoints t d' := by
    intro t d'
    simp only [calculatePoints]
    exact le_max_right _ _
  refine ⟨hv, hdc, hhl, fun st => ⟨?_, ?_, ?_⟩, hnn, fun st t d' => hnn t d'⟩ <;>
    simp [processUserAction, hv, hdc, hhl]

/-- Witness for C10 at the explicit zero-point payload. -/
theorem default_points_for_falsy_payload_witness :
    ((ActionDetails.mk (some 0) none).pointsEarned = none ∨
        (ActionDetails.mk (some 0) none).pointsEarned = some 0) ∧
      calculatePoints "vietjet_flight_booking" (ActionDetails.mk (some 0) none) = 100 ∧
      calculatePoints "dragon_city_visit" (ActionDetails.mk (some 0) none) = 50 ∧
      calculatePoints "ha_long_star_booking" (ActionDetails.mk (some 0) none) = 150 ∧
      (∀ st : UserState,
        (processUserAction st "vietjet_flight_booking" (ActionDetails.mk (some 0) none)).2.actions =
          st.actions ++ [{ action_type := "vietjet_flight_booking", points_earned := 100 }] ∧
        (processUserAction st "dragon_city_visit" (ActionDetails.mk (some 0) none)).2.actions =
          st.actions ++ [{ action_type := "dragon_city_visit", points_earned := 50 }] ∧
        (processUserAction st "ha_long_star_booking" (ActionDetails.mk (some 0) none)).2.actions =
          st.actions ++ [{ action_type := "ha_long_star_booking", points_earned := 150 }]) ∧
      (∀ (t : String) (d' : ActionDetails), 0 ≤ calculatePoints t d') ∧
      (∀ (st : UserState) (t : String) (d' : ActionDetails),
        0 ≤ (processUserAction st t d').1.pointsEarned) :=
  ⟨Or.inr rfl, default_points_for_falsy_payload (ActionDetails.mk (some 0) none) (Or.inr rfl)⟩

/-- C3 counterexample: a stored perk whose condition object is present but
carries none of the recognized keys (a malformed condition) evaluates to
`unlocked = true`, refuting the claim that a malformed condition always
yields `unlocked = false`. -/
theorem malformed_condition_unlocked_counterexample :
    malformedPerk.unlock_condition.isSome = true ∧
      evaluatePerkUnlockCondition malformedPerk (some demoUserInfo) = true := by
  exact ⟨rfl, rfl⟩

/-- C3 amended: perk evaluation is total (always returns a Boolean, never
throws) and a perk with a missing condition — or a missing user row —
evaluates `unlocked = false`; but a present, malformed condition carrying no
recognized constraint key evaluates `unlocked = true` (default-unlocked, not
default-locked), and the perk listing always produces one result per stored
perk row. -/
theorem perk_eval_total_default (p : Perk) (u : Option NFTCompleteInfo) :
    (p.unlock_condition = none → evaluatePerkUnlockCondition p u = false) ∧
      (u = none → evaluatePerkUnlockCondition p u = false) ∧
      (∀ info c, u = some info → p.unlock_condition = some c →
        c.min_loyalty_points = none → c.min_tier_level = none → c.min_staked_eth = none →
        c.min_transactions = none → c.min_brand_specific = none →
        evaluatePerkUnlockCondition p u = true) ∧
      (evaluatePerkUnlockCondition p u = true ∨ evaluatePerkUnlockCondition p u = false) ∧
      (∀ perks : List Perk, (getUserPerks perks u).length = perks.length) := by
  refine ⟨?_, ?_, ?_, ?_, ?_⟩
  · intro hc
    cases u <;> simp [evaluatePerkUnlockCondition, hc]
  · intro hu
    subst hu
    simp [evaluatePerkUnlockCondition]
  · intro info c hu hc h1 h2 h3 h4 h5
    subst hu
    simp [evaluatePerkUnlockCondition, hc, h1, h2, h3, h4, h5]
  · cases evaluatePerkUnlockCondition p u <;> simp
  · intro perks
    simp [getUserPerks]

/-- Witness for the amended C3: a perk with a NULL condition is locked for a
concrete user row. -/
theorem perk_eval_total_default_witness :
    noCondPerk.unlock_condition = none ∧
      evaluatePerkUnlockCondition noCondPerk (some demoUserInfo) = false :=
  ⟨rfl, (perk_eval_total_default noCondPerk (some demoUserInfo)).1 rfl⟩

/-- Requirement points of every table entry are non-negative. -/
lemma configs_points_nonneg :
    ∀ c ∈ LEVEL_CONFIGS, 0 ≤ c.minRequirements.loyaltyPoints.getD 0 := by
  decide

/-- C7: the progress-to-next-level computation returns 100 at (or above)
`MAX_LEVEL`; for a level `0 ≤ L < 7` the next level definition has a positive
points requirement `P` and the result is `min(100, round(100 * points / P))`;
an absent or zero points requirement yields 100; for non-negative points the
result lies in `[0, 100]`; and the result depends only on the points
dimension of the attribute vector. -/
theorem progress_to_next_level_spec (a : LoyaltyAttributes) (L : Int)
    (hp : 0 ≤ a.loyaltyPoints) :
    (MAX_LEVEL ≤ L → calculateProgressToNextLevel a L = 100) ∧
      (0 ≤ L → L < MAX_LEVEL →
        ∃ P, (getLevelConfig (L + 1)).bind (fun c => c.minRequirements.loyaltyPoints) = some P ∧
          0 < P ∧
          calculateProgressToNextLevel a L = min 100 (jsRound100 a.loyaltyPoints P)) ∧
      (∀ next : LevelConfig, next.minRequirements.loyaltyPoints.getD 0 = 0 →
        progressFromNextConfig a.loyaltyPoints next = 100) ∧
      (0 ≤ calculateProgressToNextLevel a L ∧ calculateProgressToNextLevel a L ≤ 100) ∧
      (∀ a' : LoyaltyAttributes, a'.loyaltyPoints = a.loyaltyPoints →
        calculateProgressToNextLevel a' L = calculateProgressToNextLevel a L) := by
  refine ⟨?_, ?_, ?_, ?_, ?_⟩
  · intro h
    simp [calculateProgressToNextLevel, h]
  · intro h1 h2
    simp only [MAX_LEVEL] at h2
    interval_cases L
    · exact ⟨1000, rfl, by decide, rfl⟩
    · exact ⟨2500, rfl, by decide, rfl⟩
    · exact ⟨5000, rfl, by decide, rfl⟩
    · exact ⟨10000, rfl, by decide, rfl⟩
    · exact ⟨20000, rfl, by decide, rfl⟩
    · exact ⟨35000, rfl, by decide, rfl⟩
    · exact ⟨50000, rfl, by decide, rfl⟩
  · intro next h
    simp [progressFromNextConfig, h]
  · unfold calculateProgressToNextLevel
    by_cases h : MAX_LEVEL ≤ L
    · simp [h]
    · simp only [h, if_false]
      cases hconf : getLevelConfig (L + 1) with
      | none => norm_num
      | some next =>
        have hmem : next ∈ LEVEL_CONFIGS := List.mem_of_find?_eq_some hconf
        have hP0 : 0 ≤ next.minRequirements.loyaltyPoints.getD 0 :=
          configs_points_nonneg next hmem
        unfold progressFromNextConfig
        by_cases hz : next.minRequirements.loyaltyPoints.getD 0 = 0
        · simp [hz]
        · simp only [hz, if_false]
          have hPpos : 0 < next.minRequirements.loyaltyPoints.getD 0 := by omega
          have hfd : 0 ≤ jsRound100 a.loyaltyPoints
              (next.minRequirements.loyaltyPoints.getD 0) := by
            unfold jsRound100
            exact Int.fdiv_nonneg (by omega) (by omega)
          constructor
          · exact le_min (by norm_num) hfd
          · exact min_le_left _ _
  · intro a' h
    simp [calculateProgressToNextLevel, progressFromNextConfig, h]

/-- Witness for C7 at the level-1 floor vector and current level 1. -/
theorem progress_to_next_level_spec_witness :
    (0 : Int) ≤ (⟨1000, 2, 5000000, "Standard"⟩ : LoyaltyAttributes).loyaltyPoints ∧
      ((MAX_LEVEL ≤ (1 : Int) →
          calculateProgressToNextLevel ⟨1000, 2, 5000000, "Standard"⟩ 1 = 100) ∧
        ((0 : Int) ≤ 1 → (1 : Int) < MAX_LEVEL →
          ∃ P, (getLevelConfig (1 + 1)).bind (fun c => c.minRequirements.loyaltyPoints) =
              some P ∧ 0 < P ∧
            calculateProgressToNextLevel ⟨1000, 2, 5000000, "Standard"⟩ 1 =
              min 100 (jsRound100 (⟨1000, 2, 5000000, "Standard"⟩ :
                LoyaltyAttributes).loyaltyPoints P)) ∧
        (∀ next : LevelConfig, next.minRequirements.loyaltyPoints.getD 0 = 0 →
          progressFromNextConfig (⟨1000, 2, 5000000, "Standard"⟩ :
            LoyaltyAttributes).loyaltyPoints next = 100) ∧
        (0 ≤ calculateProgressToNextLevel ⟨1000, 2, 5000000, "Standard"⟩ 1 ∧
          calculateProgressToNextLevel ⟨1000, 2, 5000000, "Standard"⟩ 1 ≤ 100) ∧
        (∀ a' : LoyaltyAttributes,
          a'.loyaltyPoints = (⟨1000, 2, 5000000, "Standard"⟩ : LoyaltyAttributes).loyaltyPoints →
          calculateProgressToNextLevel a' 1 =
            calculateProgressToNextLevel ⟨1000, 2, 5000000, "Standard"⟩ 1)) :=
  ⟨by decide, progress_to_next_level_spec ⟨1000, 2, 5000000, "Standard"⟩ 1 (by decide)⟩

end GomGom
